import Mathlib

/-!
Shallow embedding of the HITBACK backend game-session core
(`GameSessionService` spend-once variant, `QuestionService`,
`TrackService` anti-duplicate variant) and proofs about it.

JavaScript strings are modelled as Lean `String`s; `toLowerCase`,
`trim`, `normalize('NFD')` followed by stripping of the combining-mark
range U+0300..U+036F, `includes`, `startsWith` and the two regular
expressions used by the question service are modelled character-wise
below.  Timestamps (`createdAt`, `startedAt`, `usedAt`, history
`timestamp`) carry no game logic and are omitted from the state.
`Math.random()`-driven choices are surfaced as explicit parameters.
A thrown JavaScript exception is modelled as `Except.error`.
-/

namespace Hitback

/-- JS whitespace as used by `trim` / `\s` on the inputs of this code base. -/
def isJsWs (c : Char) : Bool :=
  c = ' ' || c = '\t' || c = '\n' || c = '\r'

/-- `String.prototype.toLowerCase` on one character: ASCII letters and the
Latin-1 uppercase letters (U+00C0..U+00DE except the multiplication sign)
map down by 32 code points, everything else is fixed. -/
def jsToLowerChar (c : Char) : Char :=
  if 'A' ≤ c && c ≤ 'Z' then Char.ofNat (c.toNat + 32)
  else if 0xC0 ≤ c.toNat && c.toNat ≤ 0xDE && c.toNat ≠ 0xD7 then Char.ofNat (c.toNat + 32)
  else c

def jsToLower (s : String) : String :=
  String.mk (s.toList.map jsToLowerChar)

/-- `String.prototype.trim`. -/
def jsTrimList (s : List Char) : List Char :=
  ((s.dropWhile isJsWs).reverse.dropWhile isJsWs).reverse

def jsTrim (s : String) : String :=
  String.mk (jsTrimList s.toList)

/-- `normalize('NFD').replace(/[̀-ͯ]/g, '')` on one character:
each precomposed Latin-1 letter decomposes into its base letter plus
combining marks in U+0300..U+036F, which the replace removes, leaving the
base letter; characters outside that repertoire are unchanged. -/
def stripDiacriticChar (c : Char) : Char :=
  match c with
  | 'à' | 'á' | 'â' | 'ã' | 'ä' | 'å' => 'a'
  | 'ç' => 'c'
  | 'è' | 'é' | 'ê' | 'ë' => 'e'
  | 'ì' | 'í' | 'î' | 'ï' => 'i'
  | 'ñ' => 'n'
  | 'ò' | 'ó' | 'ô' | 'õ' | 'ö' => 'o'
  | 'ù' | 'ú' | 'û' | 'ü' => 'u'
  | 'ý' | 'ÿ' => 'y'
  | _ => c

/-- `normalize('NFD').replace(/[̀-ͯ]/g, '')` on a string. -/
def stripDiacritics (s : String) : String :=
  String.mk (s.toList.map stripDiacriticChar)

/-- `b` occurs as a contiguous run inside `s`. -/
def listInfix (sub : List Char) : List Char → Bool
  | [] => sub.isEmpty
  | c :: rest => sub.isPrefixOf (c :: rest) || listInfix sub rest

/-- `a.includes(b)`. -/
def jsIncludes (s sub : String) : Bool :=
  listInfix sub.toList s.toList

/-- `a.startsWith(b)`. -/
def jsStartsWith (s pre : String) : Bool :=
  pre.toList.isPrefixOf s.toList

/-- The alternatives of the collaboration-splitting regular expression
`/\s*(ft\.?|feat\.?|featuring|&|y|and|with)\s*/i`.  `ft\.?` and `feat\.?`
are expanded into their two concrete forms. -/
def collabSeps : List String :=
  ["ft.", "ft", "feat.", "feat", "featuring", "&", "y", "and", "with"]

/-- Index of the first position at which one of `collabSeps` matches
(the input is already lowercased, so the `/i` flag needs no extra work). -/
def firstSepIndex : List Char → Nat → Option Nat
  | [], _ => none
  | c :: rest, i =>
    if collabSeps.any (fun sep => sep.toList.isPrefixOf (c :: rest)) then some i
    else firstSepIndex rest (i + 1)

/-- Length of the maximal whitespace run ending just before index `q`:
the leading `\s*` of the regular expression extends the match that far
to the left. -/
def wsRunEndingAt (s : List Char) (q : Nat) : Nat :=
  ((s.take q).reverse.takeWhile isJsWs).length

/-- `normalized.split(/\s*(ft\.?|feat\.?|featuring|&|y|and|with)\s*/i)[0].trim()`:
the part of the string before the first match of the separator regular
expression, trimmed. -/
def splitCollabMain (s : String) : String :=
  match firstSepIndex s.toList 0 with
  | none => jsTrim s
  | some q => jsTrim (String.mk (s.toList.take (q - wsRunEndingAt s.toList q)))

/-- If `s` starts with a match of `/\s*\([^)]*\)/`, return the remainder
after the match. -/
def startsParenMatch (s : List Char) : Option (List Char) :=
  match s.dropWhile isJsWs with
  | '(' :: r =>
    match r.dropWhile (fun c => c ≠ ')') with
    | ')' :: after => some after
    | _ => none
  | _ => none

/-- `replace(/\s*\([^)]*\)/g, '')`: remove every whitespace-prefixed
parenthesised group, scanning left to right.  The fuel argument starts at
the length of the string; every step consumes at least one character. -/
def removeParensGo : Nat → List Char → List Char
  | 0, s => s
  | _ + 1, [] => []
  | fuel + 1, c :: rest =>
    match startsParenMatch (c :: rest) with
    | some after => removeParensGo fuel after
    | none => c :: removeParensGo fuel rest

def removeParens (s : String) : String :=
  String.mk (removeParensGo s.toList.length s.toList)

/-- `list` with `x` appended unless already present: the insertion-order
behaviour of adding to a JS `Set` that is later turned into an array. -/
def addIfAbsent (l : List String) (x : String) : List String :=
  if x ∈ l then l else l ++ [x]

/-- `QuestionService._generateAcceptableAnswers`. -/
def generateAcceptableAnswers (answer : String) : List String :=
  if answer = "" then []
  else
    let normalized := jsTrim (jsToLower answer)
    let v1 := addIfAbsent [] normalized
    let noAccents := stripDiacritics normalized
    let v2 := addIfAbsent v1 noAccents
    let v3 :=
      if jsIncludes normalized " ft." || jsIncludes normalized " feat." ||
          jsIncludes normalized " ft " then
        addIfAbsent v2 (splitCollabMain normalized)
      else v2
    let v4 :=
      if jsStartsWith normalized "the " then
        addIfAbsent v3 (String.mk (normalized.toList.drop 4))
      else v3
    let noParens := jsTrim (removeParens normalized)
    if noParens ≠ normalized then addIfAbsent v4 noParens else v4

/-- `decade.replace(sub, rep)` with a plain-string pattern replaces the
first occurrence only. -/
def jsReplaceFirstGo : Nat → List Char → List Char → List Char → List Char
  | 0, s, _, _ => s
  | _ + 1, [], _, _ => []
  | fuel + 1, c :: rest, pat, rep =>
    if pat.isPrefixOf (c :: rest) then rep ++ (c :: rest).drop pat.length
    else c :: jsReplaceFirstGo fuel rest pat rep

def jsReplaceFirst (s pat rep : String) : String :=
  String.mk (jsReplaceFirstGo s.toList.length s.toList pat.toList rep.toList)

/-- `s.slice(-2)`: the last two characters. -/
def jsSliceLast2 (s : String) : String :=
  String.mk (s.toList.drop (s.toList.length - 2))

/-- `QuestionService._generateDecadeAcceptable`. -/
def generateDecadeAcceptable (decade : String) : List String :=
  if decade = "" then []
  else
    let year := jsReplaceFirst decade "s" ""
    let shortYear := jsSliceLast2 year
    [jsToLower decade,
     jsReplaceFirst decade "s" "",
     jsReplaceFirst (jsReplaceFirst decade "19" "") "20" "",
     shortYear ++ "s",
     shortYear]

/-- A generated question (`QuestionService` output object). -/
structure Question where
  type : String
  question : String
  answer : String
  acceptableAnswers : List String
  hints : List String
  points : Nat
  icon : String
  isChallenge : Bool := false
  challengeType : Option String := none
deriving Repr, DecidableEq

/-- `QuestionService.validateAnswer` result object.  The early return for
an empty user answer carries no `userAnswer`/`correctAnswer` fields in the
source; they are modelled as empty strings. -/
structure ValidationResult where
  correct : Bool
  exactMatch : Bool
  userAnswer : String
  correctAnswer : String
deriving Repr, DecidableEq

/-- `QuestionService.validateAnswer`. -/
def validateAnswer (userAnswer : String) (question : Question) : ValidationResult :=
  if userAnswer = "" then ⟨false, false, "", ""⟩
  else
    let normalized := stripDiacritics (jsTrim (jsToLower userAnswer))
    let exactMatch := normalized = jsTrim (jsToLower question.answer)
    let isAcceptable := question.acceptableAnswers.any (fun ans =>
      let normalizedAns := stripDiacritics (jsTrim (jsToLower ans))
      normalized = normalizedAns ||
        jsIncludes normalized normalizedAns ||
        jsIncludes normalizedAns normalized)
    ⟨exactMatch || isAcceptable, exactMatch,
      normalized, question.answer⟩

/-- `String.prototype.toUpperCase` on one character (ASCII and Latin-1). -/
def jsToUpperChar (c : Char) : Char :=
  if 'a' ≤ c && c ≤ 'z' then Char.ofNat (c.toNat - 32)
  else if 0xE0 ≤ c.toNat && c.toNat ≤ 0xFE && c.toNat ≠ 0xF7 then Char.ofNat (c.toNat - 32)
  else c

def jsToUpper (s : String) : String :=
  String.mk (s.toList.map jsToUpperChar)

/-- Pre-authored lyrics content on a track (`track.lyrics`). -/
structure Lyrics where
  fragment : String
  answer : String
deriving Repr, DecidableEq

/-- Pre-authored challenge content on a track (`track.challenge`).
An empty `type` models a missing `type` field (`|| 'perform'` applies). -/
structure Challenge where
  text : String
  type : String := ""
deriving Repr, DecidableEq

/-- A catalog track record.  Absent optional JS fields are modelled as
`none` (for the object-valued `lyrics`/`challenge`) or as the empty
string / zero (for the string- and number-valued fields, matching JS
truthiness tests in the source). -/
structure Track where
  id : String
  title : String
  artist : String
  album : String := ""
  year : Nat
  genre : String
  decade : String
  difficulty : String
  lyrics : Option Lyrics := none
  challenge : Option Challenge := none
deriving Repr, DecidableEq

/-- `QuestionService.BASE_POINTS`. -/
def BASE_POINTS (t : String) : Nat :=
  if t = "song" then 1
  else if t = "artist" then 2
  else if t = "decade" then 2
  else if t = "year" then 3
  else if t = "lyrics" then 3
  else if t = "challenge" then 5
  else 0

/-- `track.lyrics && track.lyrics.fragment && track.lyrics.answer`. -/
def hasLyricsData (track : Track) : Bool :=
  match track.lyrics with
  | some l => l.fragment ≠ "" && l.answer ≠ ""
  | none => false

/-- `track.challenge && track.challenge.text`. -/
def hasChallengeData (track : Track) : Bool :=
  match track.challenge with
  | some c => c.text ≠ ""
  | none => false

/-- `QuestionService.getAvailableTypes`. -/
def getAvailableTypes (track : Track) : List String :=
  ["song", "artist", "decade", "year"]
    ++ (if hasLyricsData track then ["lyrics"] else [])
    ++ (if hasChallengeData track then ["challenge"] else [])

/-- The fixed relative weights of `QuestionService.getRandomQuestionType`
(`weights[type] || 10`). -/
def typeWeight (t : String) : Nat :=
  if t = "song" then 25
  else if t = "artist" then 30
  else if t = "decade" then 20
  else if t = "year" then 10
  else if t = "lyrics" then 10
  else if t = "challenge" then 5
  else 10

/-- The flattened repeated-item array built by
`QuestionService.getRandomQuestionType`. -/
def weightedPool (track : Track) : List String :=
  (getAvailableTypes track).flatMap (fun t => List.replicate (typeWeight t) t)

/-- `QuestionService.getRandomQuestionType`; the uniform draw is surfaced
as the `pick` parameter. -/
def getRandomQuestionType (track : Track) (pick : Nat) : String :=
  ((weightedPool track).get? (pick % (weightedPool track).length)).getD ""

/-- `track.artist.split(' ')[0]`. -/
def firstWord (s : String) : String :=
  String.mk (s.toList.takeWhile (fun c => c ≠ ' '))

/-- `QuestionService._generateSongHints`. -/
def generateSongHints (track : Track) : List String :=
  let hints :=
    (if track.artist ≠ "" then ["Artista: " ++ firstWord track.artist ++ "..."] else [])
    ++ (if track.album ≠ "" then ["Del álbum: " ++ track.album] else [])
    ++ (if track.genre ≠ "" then ["Género: " ++ track.genre] else [])
  if hints.length > 0 then hints else ["Escucha con atención"]

/-- `QuestionService._generateArtistHints`. -/
def generateArtistHints (track : Track) : List String :=
  let hints :=
    (if track.decade ≠ "" then ["Época: " ++ track.decade] else [])
    ++ (if track.genre ≠ "" then ["Género: " ++ track.genre] else [])
    ++ (if track.title ≠ "" then
          ["Canción: " ++ String.mk (track.title.toList.take 3) ++ "..."] else [])
  if hints.length > 0 then hints else ["Reconoce la voz"]

/-- `QuestionService._generateDecadeHints`. -/
def generateDecadeHints (track : Track) : List String :=
  let hints :=
    (if track.year ≠ 0 then ["Cerca de " ++ toString (track.year / 10 * 10)] else [])
    ++ (if track.genre ≠ "" then ["Estilo: " ++ track.genre] else [])
  if hints.length > 0 then hints else ["Piensa en el estilo musical"]

/-- `QuestionService._generateYearHints`. -/
def generateYearHints (track : Track) : List String :=
  let hints :=
    (if track.decade ≠ "" then ["Década: " ++ track.decade] else [])
    ++ (if track.year ≠ 0 then
          ["Entre " ++ toString (track.year - 2) ++ " - " ++ toString (track.year + 2)]
        else [])
  if hints.length > 0 then hints else ["Piensa en la época"]

/-- `QuestionService._generateSongQuestion`. -/
def generateSongQuestion (track : Track) : Question :=
  { type := "song"
    question := "¿Cuál es el nombre de esta canción?"
    answer := track.title
    acceptableAnswers := generateAcceptableAnswers track.title
    hints := generateSongHints track
    points := BASE_POINTS "song"
    icon := "🎵" }

/-- `QuestionService._generateArtistQuestion`. -/
def generateArtistQuestion (track : Track) : Question :=
  { type := "artist"
    question := "¿Quién canta esta canción?"
    answer := track.artist
    acceptableAnswers := generateAcceptableAnswers track.artist
    hints := generateArtistHints track
    points := BASE_POINTS "artist"
    icon := "🎤" }

/-- `QuestionService._generateDecadeQuestion`. -/
def generateDecadeQuestion (track : Track) : Question :=
  { type := "decade"
    question := "¿De qué década es esta canción?"
    answer := track.decade
    acceptableAnswers := generateDecadeAcceptable track.decade
    hints := generateDecadeHints track
    points := BASE_POINTS "decade"
    icon := "📅" }

/-- `QuestionService._generateYearQuestion`. -/
def generateYearQuestion (track : Track) : Question :=
  { type := "year"
    question := "¿En qué año salió esta canción?"
    answer := toString track.year
    acceptableAnswers := [toString track.year]
    hints := generateYearHints track
    points := BASE_POINTS "year"
    icon := "📆" }

/-- `QuestionService._generateLyricsQuestion` (falls back to the artist
question when the track has no lyrics fragment). -/
def generateLyricsQuestion (track : Track) : Question :=
  match track.lyrics with
  | some l =>
    if l.fragment = "" then generateArtistQuestion track
    else
      { type := "lyrics"
        question := "Completa la letra: \"" ++ l.fragment ++ "...\""
        answer := l.answer
        acceptableAnswers := generateAcceptableAnswers l.answer
        hints := ["Escucha atentamente la letra"]
        points := BASE_POINTS "lyrics"
        icon := "📝" }
  | none => generateArtistQuestion track

/-- `QuestionService._generateChallengeQuestion` (falls back to the song
question when the track has no challenge text). -/
def generateChallengeQuestion (track : Track) : Question :=
  match track.challenge with
  | some c =>
    if c.text = "" then generateSongQuestion track
    else
      { type := "challenge"
        question := c.text
        answer := "Completar reto"
        acceptableAnswers := ["completado", "hecho", "done"]
        hints := ["¡Demuestra tu talento!"]
        points := BASE_POINTS "challenge"
        challengeType := some (if c.type = "" then "perform" else c.type)
        icon := "🔥"
        isChallenge := true }
  | none => generateSongQuestion track

/-- `QuestionService.generateQuestion`: dispatch on the (forced or
randomly drawn) question type; unknown types default to the song
question. -/
def generateQuestion (track : Track) (questionType : Option String) (typePick : Nat) :
    Question :=
  let t :=
    match questionType with
    | some ty => ty
    | none => getRandomQuestionType track typePick
  if t = "song" then generateSongQuestion track
  else if t = "artist" then generateArtistQuestion track
  else if t = "decade" then generateDecadeQuestion track
  else if t = "year" then generateYearQuestion track
  else if t = "lyrics" then generateLyricsQuestion track
  else if t = "challenge" then generateChallengeQuestion track
  else generateSongQuestion track

/-- Filters handed to `TrackService.getRandomTrack`. -/
structure Filters where
  difficulty : String := "ANY"
  genre : String := "ANY"
  decade : String := "ANY"
deriving Repr, DecidableEq

/-- `filters.difficulty && filters.difficulty !== 'ANY'` (and likewise for
the other two filters): the filter is applied only when the field is a
non-empty string different from `'ANY'`. -/
def filterActive (v : String) : Bool :=
  v ≠ "" && v ≠ "ANY"

/-- `t.difficulty && t.difficulty.toLowerCase() === diffLower`. -/
def difficultyMatches (d : String) (t : Track) : Bool :=
  t.difficulty ≠ "" && jsToLower t.difficulty = jsToLower d

/-- `t.genre && t.genre.toUpperCase() === genreUpper`. -/
def genreMatches (g : String) (t : Track) : Bool :=
  t.genre ≠ "" && jsToUpper t.genre = jsToUpper g

/-- `this.usedTrackIds.add(trackId)` (`TrackService.markTrackAsUsed`);
the JS `Set` is modelled as a duplicate-free list. -/
def markUsed (trackId : String) (used : List String) : List String :=
  if trackId ∈ used then used else used ++ [trackId]

/-- Outcome of one `TrackService.getRandomTrack` call.  `wrapped` records
whether `usedTrackIds` was cleared during the call; `thrown` models the
uncaught JS `TypeError` raised by `markTrackAsUsed(selected.id)` when the
indexed pool was empty (`selected` is `undefined`), together with the
`usedTrackIds` value left behind by the in-place resets that already
happened. -/
inductive TrackOutcome where
  | ok (track : Track) (used : List String) (wrapped : Bool)
  | thrown (msg : String) (used : List String)
deriving Repr, DecidableEq

/-- Uniform sampling from a pool followed by `markTrackAsUsed`: the
`Math.random()` draw is surfaced as `pick` (reduced modulo the pool size,
exactly the range `Math.floor(Math.random() * pool.length)` produces).
An empty pool reproduces the `undefined` indexing followed by the thrown
`TypeError`. -/
def selectAndMark (pool : List Track) (used : List String) (pick : Nat) (wrapped : Bool) :
    TrackOutcome :=
  match pool.get? (pick % pool.length) with
  | some sel => .ok sel (markUsed sel.id used) wrapped
  | none => .thrown "TypeError: Cannot read properties of undefined (reading id)" used

/-- `TrackService.getFallbackTrack` (anti-duplicate variant): tiered
fallback — difficulty-only over unused, genre-only over unused, any
unused, then reset-and-retry over the whole catalog. -/
def getFallbackTrack (tracks : List Track) (used : List String) (filters : Filters)
    (pick : Nat) (wrapped : Bool) : TrackOutcome :=
  let pool1 := tracks.filter (fun t => difficultyMatches filters.difficulty t && !(t.id ∈ used))
  if filterActive filters.difficulty && !pool1.isEmpty then
    selectAndMark pool1 used pick wrapped
  else
    let pool2 := tracks.filter (fun t => genreMatches filters.genre t && !(t.id ∈ used))
    if filterActive filters.genre && !pool2.isEmpty then
      selectAndMark pool2 used pick wrapped
    else
      let availableTracks := tracks.filter (fun t => !(t.id ∈ used))
      if !availableTracks.isEmpty then
        selectAndMark availableTracks used pick wrapped
      else
        selectAndMark tracks [] pick true

/-- `TrackService.getRandomTrack` (anti-duplicate variant): exclude used
tracks, auto-reset when everything is used, apply the three filters, fall
back when the filtered pool is empty, otherwise sample and mark used. -/
def getRandomTrack (tracks : List Track) (used : List String) (filters : Filters)
    (pick : Nat) : TrackOutcome :=
  let pool0 := tracks.filter (fun t => !(t.id ∈ used))
  let wrapped := pool0.isEmpty
  let used1 := if wrapped then [] else used
  let pool1 := if wrapped then tracks else pool0
  let pool2 :=
    if filterActive filters.difficulty then
      pool1.filter (difficultyMatches filters.difficulty) else pool1
  let pool3 :=
    if filterActive filters.genre then pool2.filter (genreMatches filters.genre) else pool2
  let pool4 :=
    if filterActive filters.decade then
      pool3.filter (fun t => t.decade = filters.decade) else pool3
  if pool4.isEmpty then getFallbackTrack tracks used1 filters pick wrapped
  else selectAndMark pool4 used1 pick wrapped

/-- `player.stats`. -/
structure Stats where
  correctAnswers : Nat
  wrongAnswers : Nat
  tokensUsed : List Nat
deriving Repr, DecidableEq

/-- A session player.  `powerCards` is always the empty array in the
source and is omitted. -/
structure Player where
  id : String
  name : String
  score : Nat
  availableTokens : List Nat
  stats : Stats
deriving Repr, DecidableEq

/-- `session.config`. -/
structure SessionConfig where
  genres : List String
  decades : List String
  difficulty : String
  targetScore : Nat
  timeLimit : Nat
  powerCardsPerPlayer : Nat
deriving Repr, DecidableEq

/-- The public track fields stored on `currentRound.track`. -/
structure PublicTrack where
  id : String
  genre : String
  decade : String
  audioUrl : Option String
  audioSource : String
deriving Repr, DecidableEq

/-- The public question fields stored on `currentRound.question`. -/
structure RoundQuestion where
  type : String
  text : String
  icon : String
  points : Nat
  hints : List String
  isChallenge : Bool
deriving Repr, DecidableEq

/-- The private per-round answer record `currentRound._answer`. -/
structure AnswerRecord where
  correct : String
  acceptableAnswers : List String
  trackTitle : String
  trackArtist : String
deriving Repr, DecidableEq

/-- `session.currentRound`.  `bets` is the JS object used as a map from
player id to `{tokenValue}` (the `usedAt` timestamp is dropped). -/
structure Round where
  roundNumber : Nat
  trackId : String
  track : PublicTrack
  question : RoundQuestion
  _answer : AnswerRecord
  bets : List (String × Nat)
  status : String
deriving Repr, DecidableEq

/-- `round.bets[playerId] = {tokenValue}`: JS object key assignment —
overwrite the existing entry for that key, or append a new one. -/
def setBet (bets : List (String × Nat)) (playerId : String) (tokenValue : Nat) :
    List (String × Nat) :=
  match bets with
  | [] => [(playerId, tokenValue)]
  | b :: rest =>
    if b.1 = playerId then (playerId, tokenValue) :: rest
    else b :: setBet rest playerId tokenValue

/-- `round.bets[playerId]` lookup. -/
def getBet (bets : List (String × Nat)) (playerId : String) : Option Nat :=
  (bets.find? (fun b => b.1 = playerId)).map (fun b => b.2)

/-- `session.history` entries (`timestamp` dropped). -/
structure HistoryEntry where
  round : Nat
  trackId : String
  questionType : String
  winner : Option String
  pointsAwarded : Nat
deriving Repr, DecidableEq

/-- A game session (`createdAt`/`startedAt` timestamps dropped). -/
structure Session where
  id : String
  status : String
  config : SessionConfig
  players : List Player
  currentPlayerIndex : Nat
  round : Nat
  usedTrackIds : List String
  currentRound : Option Round
  timeRemaining : Nat
  history : List HistoryEntry
deriving Repr, DecidableEq

/-- The initial token set handed to every fresh player. -/
def initialTokens : List Nat := [1, 2, 3]

/-- One player as built inside `createSession`
(`players.map((name, index) => ...)`). -/
def mkPlayer (index : Nat) (name : String) : Player :=
  { id := "player_" ++ toString (index + 1)
    name := if name = "" then "Jugador " ++ toString (index + 1) else name
    score := 0
    availableTokens := initialTokens
    stats := { correctAnswers := 0, wrongAnswers := 0, tokensUsed := [] } }

/-- The session object built by `createSession` (the random id is the
`sessionId` parameter). -/
def newSession (players : List String) (cfg : SessionConfig) (sessionId : String) :
    Session :=
  { id := sessionId
    status := "created"
    config := cfg
    players := players.enum.map (fun p => mkPlayer p.1 p.2)
    currentPlayerIndex := 0
    round := 0
    usedTrackIds := []
    currentRound := none
    timeRemaining := cfg.timeLimit
    history := [] }

/-- `GameSessionService._checkWinner` result object `{id, name, score}`
(also the shape of `results.winner`, whose `newScore` field plays the
role of `score`). -/
structure GameWinner where
  id : String
  name : String
  score : Nat
deriving Repr, DecidableEq

/-- `GameSessionService._checkWinner`: the first player in array order
whose score has reached the target. -/
def checkWinner (s : Session) : Option GameWinner :=
  (s.players.find? (fun p => s.config.targetScore ≤ p.score)).map
    (fun p => ⟨p.id, p.name, p.score⟩)

/-- In-place mutation through the reference returned by
`session.players.find(...)`: only the first player with the given id is
rewritten. -/
def updateFirstPlayer (ps : List Player) (playerId : String) (f : Player → Player) :
    List Player :=
  match ps with
  | [] => []
  | p :: rest =>
    if p.id = playerId then f p :: rest
    else p :: updateFirstPlayer rest playerId f

/-- `GameSessionService.startGame` on a looked-up session. -/
inductive StartResult where
  | alreadyPlaying
  | ok
deriving Repr, DecidableEq

def startGameCore (s : Session) : StartResult × Session :=
  if s.status = "playing" then (.alreadyPlaying, s)
  else (.ok, { s with status := "playing" })

/-- Result of `GameSessionService.placeBet` on a looked-up session.
`tokenUnavailable` carries the `availableTokens` array included in the
failure response; `ok` carries the bet value and the remaining tokens. -/
inductive PlaceBetResult where
  | noRound
  | playerNotFound
  | tokenUnavailable (availableTokens : List Nat)
  | ok (tokenValue : Nat) (availableTokens : List Nat)
deriving Repr, DecidableEq

/-- The in-place mutation `placeBet` performs on the betting player:
remove the token from `availableTokens`, push it onto the
`stats.tokensUsed` ledger. -/
def betUpdate (tokenValue : Nat) (p : Player) : Player :=
  { p with
      availableTokens := p.availableTokens.filter (fun t => t ≠ tokenValue)
      stats := { p.stats with tokensUsed := p.stats.tokensUsed ++ [tokenValue] } }

/-- `GameSessionService.placeBet` on a looked-up session. -/
def placeBetCore (s : Session) (playerId : String) (tokenValue : Nat) :
    PlaceBetResult × Session :=
  match s.currentRound with
  | none => (.noRound, s)
  | some round =>
    match s.players.find? (fun p => p.id = playerId) with
    | none => (.playerNotFound, s)
    | some player =>
      if tokenValue ∈ player.availableTokens then
        let players' := updateFirstPlayer s.players playerId (betUpdate tokenValue)
        let round' := { round with bets := setBet round.bets playerId tokenValue }
        (.ok tokenValue ((betUpdate tokenValue player).availableTokens),
          { s with players := players', currentRound := some round' })
      else
        (.tokenUnavailable player.availableTokens, s)

/-- One per-player entry of the `players` array returned by
`revealAnswer` (`tokens` is the compatibility count). -/
structure PlayerView where
  id : String
  name : String
  score : Nat
  availableTokens : List Nat
  tokens : Nat
deriving Repr, DecidableEq

/-- The `results` object returned by `revealAnswer`. -/
structure RevealResults where
  correctAnswer : String
  trackTitle : String
  trackArtist : String
  winner : Option GameWinner
  pointsAwarded : Nat
  basePoints : Nat
  tokenBonus : Nat
  gameOver : Bool
  gameWinner : Option GameWinner
deriving Repr, DecidableEq

inductive RevealResult where
  | noRound
  | ok (results : RevealResults) (players : List PlayerView)
deriving Repr, DecidableEq

/-- The in-place mutation `revealAnswer` performs on the winning player:
add the award to the score, bump the correct-answer counter. -/
def winUpdate (totalPoints : Nat) (p : Player) : Player :=
  { p with
      score := p.score + totalPoints
      stats := { p.stats with correctAnswers := p.stats.correctAnswers + 1 } }

/-- `GameSessionService.revealAnswer` on a looked-up session. -/
def revealAnswerCore (s : Session) (winnerId : Option String) :
    RevealResult × Session :=
  match s.currentRound with
  | none => (.noRound, s)
  | some round =>
    let answer := round._answer
    let processed :
        Option GameWinner × Nat × Nat × List Player :=
      match winnerId with
      | none => (none, 0, 0, s.players)
      | some wid =>
        match s.players.find? (fun p => p.id = wid) with
        | none => (none, 0, 0, s.players)
        | some w =>
          let tokenBonus := (getBet round.bets wid).getD 0
          let totalPoints := round.question.points + tokenBonus
          let players' := updateFirstPlayer s.players wid (winUpdate totalPoints)
          (some ⟨w.id, w.name, w.score + totalPoints⟩, totalPoints, tokenBonus, players')
    let winnerView := processed.1
    let pointsAwarded := processed.2.1
    let tokenBonus := processed.2.2.1
    let players' := processed.2.2.2
    let entry : HistoryEntry :=
      { round := round.roundNumber, trackId := round.trackId
        questionType := round.question.type, winner := winnerId
        pointsAwarded := pointsAwarded }
    let s' := { s with players := players', currentRound := none
                       history := s.history ++ [entry] }
    let gameWinner := checkWinner s'
    let s'' := if gameWinner.isSome then { s' with status := "finished" } else s'
    let results : RevealResults :=
      { correctAnswer := answer.correct
        trackTitle := answer.trackTitle
        trackArtist := answer.trackArtist
        winner := winnerView
        pointsAwarded := pointsAwarded
        basePoints := round.question.points
        tokenBonus := tokenBonus
        gameOver := gameWinner.isSome
        gameWinner := gameWinner }
    (.ok results (players'.map (fun p =>
        ⟨p.id, p.name, p.score, p.availableTokens, p.availableTokens.length⟩)), s'')

/-- `GameSessionService._getRandomFromArray` (random index surfaced). -/
def getRandomFromArray (arr : List String) (pick : Nat) : String :=
  if arr.isEmpty then "ANY"
  else if "ANY" ∈ arr then "ANY"
  else ((arr.get? (pick % arr.length)).getD "ANY")

/-- Result of `GameSessionService.nextRound` on a looked-up session.
`thrown` models the uncaught exception escaping from
`getRandomTrack`/`getFallbackTrack` — the source line
`if (!track) return {success: false, error: 'No hay tracks disponibles'}`
is unreachable because the track service throws instead of returning a
falsy value. -/
inductive NextRoundResult where
  | notPlaying
  | gameOver (winner : GameWinner)
  | ok (number : Nat) (track : PublicTrack) (question : RoundQuestion)
      (gameMasterData : AnswerRecord)
  | thrown (msg : String)
deriving Repr, DecidableEq

/-- `GameSessionService.nextRound` on a looked-up session.  `trackUsed`
is the process-wide `TrackService.usedTrackIds` singleton state; the
Deezer lookup is the `audioUrl` parameter (its errors are absorbed by
the source's try/catch); random draws are surfaced as picks.  Returns
the result, the session as left behind (note `session.round++` happens
before track selection, so it persists even when the exception is
thrown), and the new singleton state. -/
def nextRoundCore (tracks : List Track) (trackUsed : List String) (s : Session)
    (forcedType : Option String) (gp dp trackPick typePick : Nat)
    (audioUrl : Option String) : NextRoundResult × Session × List String :=
  if s.status ≠ "playing" then (.notPlaying, s, trackUsed)
  else
    match checkWinner s with
    | some w => (.gameOver w, { s with status := "finished" }, trackUsed)
    | none =>
      let s1 := { s with round := s.round + 1 }
      let filters : Filters :=
        { genre := getRandomFromArray s.config.genres gp
          decade := getRandomFromArray s.config.decades dp
          difficulty := s.config.difficulty }
      match getRandomTrack tracks trackUsed filters trackPick with
      | .thrown msg used' => (.thrown msg, s1, used')
      | .ok track used' _ =>
        let audioSource := if audioUrl.isSome then "deezer" else "none"
        let question := generateQuestion track forcedType typePick
        let round : Round :=
          { roundNumber := s1.round
            trackId := track.id
            track := ⟨track.id, track.genre, track.decade, audioUrl, audioSource⟩
            question := ⟨question.type, question.question, question.icon,
              question.points, question.hints, question.isChallenge⟩
            _answer := ⟨question.answer, question.acceptableAnswers,
              track.title, track.artist⟩
            bets := []
            status := "playing" }
        let s2 := { s1 with currentRound := some round
                            usedTrackIds := s1.usedTrackIds ++ [track.id] }
        (.ok s2.round round.track round.question round._answer, s2, used')

/-- `currentRound` as it appears after `_sanitizeSession`: a copy of the
round object with the `_answer` property deleted. -/
structure PublicRound where
  roundNumber : Nat
  trackId : String
  track : PublicTrack
  question : RoundQuestion
  bets : List (String × Nat)
  status : String
deriving Repr, DecidableEq

def sanitizeRound (r : Round) : PublicRound :=
  ⟨r.roundNumber, r.trackId, r.track, r.question, r.bets, r.status⟩

/-- A session as serialized by `_sanitizeSession` (and returned by
`createSession`/`startGame`/`getStatus`). -/
structure SanitizedSession where
  id : String
  status : String
  config : SessionConfig
  players : List Player
  currentPlayerIndex : Nat
  round : Nat
  usedTrackIds : List String
  currentRound : Option PublicRound
  timeRemaining : Nat
  history : List HistoryEntry
deriving Repr, DecidableEq

/-- `GameSessionService._sanitizeSession`. -/
def sanitizeSession (s : Session) : SanitizedSession :=
  { id := s.id, status := s.status, config := s.config, players := s.players
    currentPlayerIndex := s.currentPlayerIndex, round := s.round
    usedTrackIds := s.usedTrackIds
    currentRound := s.currentRound.map sanitizeRound
    timeRemaining := s.timeRemaining, history := s.history }

/-- One entry of the `getAllSessions` listing (`createdAt` dropped). -/
structure SessionSummary where
  id : String
  status : String
  players : Nat
  round : Nat
deriving Repr, DecidableEq

/-- The projection `getAllSessions` applies to each stored session. -/
def sessionSummary (s : Session) : SessionSummary :=
  ⟨s.id, s.status, s.players.length, s.round⟩

/-- The process-global mutable state: the session `Map` of
`GameSessionService` and the `usedTrackIds` set of the `TrackService`
singleton (`module.exports = new TrackService()` — one instance shared by
every session). -/
structure GlobalState where
  sessions : List (String × Session)
  trackUsedIds : List String
deriving Repr, DecidableEq

/-- `this.sessions.set(sessionId, session)`. -/
def setSession (l : List (String × Session)) (sid : String) (s : Session) :
    List (String × Session) :=
  match l with
  | [] => [(sid, s)]
  | e :: rest => if e.1 = sid then (sid, s) :: rest else e :: setSession rest sid s

/-- `this.sessions.get(sessionId)`. -/
def lookupSession (g : GlobalState) (sid : String) : Option Session :=
  (g.sessions.find? (fun e => e.1 = sid)).map (fun e => e.2)

/-- The `config` argument of `createSession` with its destructuring
defaults. -/
structure CreateConfig where
  players : List String := []
  genres : List String := ["ANY"]
  decades : List String := ["ANY"]
  difficulty : String := "ANY"
  targetScore : Nat := 15
  timeLimit : Nat := 1200
  powerCardsPerPlayer : Nat := 3
deriving Repr, DecidableEq

/-- `GameSessionService.createSession`: builds the session with NO
validation of the player list, stores it, and calls
`this.trackService.resetUsedTracks()` on the shared singleton.  The
random session id is the `sessionId` parameter.  Returns
`{success: true, session}` paired with the new global state. -/
def createSession (g : GlobalState) (config : CreateConfig) (sessionId : String) :
    (Bool × SanitizedSession) × GlobalState :=
  let session := newSession config.players
    { genres := config.genres, decades := config.decades
      difficulty := config.difficulty, targetScore := config.targetScore
      timeLimit := config.timeLimit
      powerCardsPerPlayer := config.powerCardsPerPlayer } sessionId
  ((true, sanitizeSession session),
    { sessions := setSession g.sessions sessionId session
      trackUsedIds := [] })

/-- `GameSessionService.startGame` at the store level. -/
def startGameG (g : GlobalState) (sid : String) : GlobalState :=
  match lookupSession g sid with
  | none => g
  | some s => { g with sessions := setSession g.sessions sid (startGameCore s).2 }

/-- `GameSessionService.nextRound` at the store level: `none` models the
`'Sesión no encontrada'` failure. -/
def nextRoundG (tracks : List Track) (g : GlobalState) (sid : String)
    (forcedType : Option String) (gp dp trackPick typePick : Nat)
    (audioUrl : Option String) : Option NextRoundResult × GlobalState :=
  match lookupSession g sid with
  | none => (none, g)
  | some s =>
    let out := nextRoundCore tracks g.trackUsedIds s forcedType gp dp trackPick typePick audioUrl
    (some out.1,
      { sessions := setSession g.sessions sid out.2.1, trackUsedIds := out.2.2 })

/-- One lifecycle operation on a session, with every environment input
(catalog, singleton state, random draws, resolved audio) surfaced as
constructor arguments.  `getStatus`, `getAllSessions`, `deleteSession`
and `usePowerCard` do not mutate a live session's fields and need no
constructor here. -/
inductive Op where
  | startGame : Op
  | nextRound (tracks : List Track) (trackUsed : List String) (forcedType : Option String)
      (gp dp trackPick typePick : Nat) (audioUrl : Option String) : Op
  | placeBet (playerId : String) (tokenValue : Nat) : Op
  | revealAnswer (winnerId : Option String) : Op

/-- The session left behind by one operation. -/
def applyOp (s : Session) : Op → Session
  | .startGame => (startGameCore s).2
  | .nextRound tracks tu ft gp dp tp yp au =>
      (nextRoundCore tracks tu s ft gp dp tp yp au).2.1
  | .placeBet pid tok => (placeBetCore s pid tok).2
  | .revealAnswer wid => (revealAnswerCore s wid).2

def applyOps (s : Session) (ops : List Op) : Session :=
  ops.foldl applyOp s

/-- Session states reachable from a freshly created session through the
lifecycle operations. -/
inductive Reachable : Session → Prop where
  | init (players : List String) (cfg : SessionConfig) (sid : String) :
      Reachable (newSession players cfg sid)
  | step {s : Session} (o : Op) : Reachable s → Reachable (applyOp s o)

/-! Concrete data used to instantiate the theorems below. -/

def trackOne : Track :=
  { id := "001", title := "Song One", artist := "Artist One", year := 1985
    genre := "ROCK", decade := "1980s", difficulty := "easy" }

def trackTwo : Track :=
  { id := "002", title := "Song Two", artist := "Artist Two", year := 1992
    genre := "POP", decade := "1990s", difficulty := "easy" }

def scenarioCatalog : List Track := [trackOne, trackTwo]

/-- The configuration of the spec's two-round scenario:
players `["A","B"]`, `targetScore = 3`, everything else defaulted. -/
def scenarioConfig : SessionConfig :=
  { genres := ["ANY"], decades := ["ANY"], difficulty := "ANY"
    targetScore := 3, timeLimit := 1200, powerCardsPerPlayer := 3 }

def scnStart : Session :=
  (startGameCore (newSession ["A", "B"] scenarioConfig "game_1")).2

def scnNext1 : NextRoundResult × Session × List String :=
  nextRoundCore scenarioCatalog [] scnStart (some "song") 0 0 0 0 none

def scnBet1 : PlaceBetResult × Session :=
  placeBetCore scnNext1.2.1 "player_1" 1

def scnReveal1 : RevealResult × Session :=
  revealAnswerCore scnBet1.2 (some "player_1")

def scnNext2 : NextRoundResult × Session × List String :=
  nextRoundCore scenarioCatalog scnNext1.2.2 scnReveal1.2 (some "artist") 0 0 0 0 none

def scnBet2 : PlaceBetResult × Session :=
  placeBetCore scnNext2.2.1 "player_1" 2

def scnReveal2 : RevealResult × Session :=
  revealAnswerCore scnBet2.2 (some "player_1")

/-- A song question generated for a track titled `"mexico"`. -/
def mexicoQuestion : Question :=
  generateSongQuestion
    { id := "100", title := "mexico", artist := "a", year := 2000
      genre := "POP", decade := "2000s", difficulty := "easy" }

/-- Global run for the cross-session interference evidence: session
`game_a` is created and started, then plays one round (which marks track
`"001"` as used on the shared `TrackService` singleton). -/
def gRunA : GlobalState :=
  (nextRoundG scenarioCatalog
    (startGameG
      (createSession { sessions := [], trackUsedIds := [] }
        { players := ["A"] } "game_a").2
      "game_a")
    "game_a" (some "song") 0 0 0 0 none).2

/-- Creating a second, distinct session `game_b` afterwards. -/
def gRunB : GlobalState :=
  (createSession gRunA { players := ["C"] } "game_b").2

/-- Session `game_a`'s next round after `game_b` was created. -/
def gRunA2 : Option NextRoundResult × GlobalState :=
  nextRoundG scenarioCatalog gRunB "game_a" (some "song") 0 0 0 0 none

/-- The id of the track selected by a `nextRound` outcome (empty string
when no round was started). -/
def selectedTrackId : Option NextRoundResult → String
  | some (.ok _ tr _ _) => tr.id
  | _ => ""

/-- The `results` object of a successful `revealAnswer`. -/
def revealResults : RevealResult → Option RevealResults
  | .ok res _ => some res
  | .noRound => none

/-- The `(type, points)` of the question of the open round, if any. -/
def openQuestionInfo (s : Session) : Option (String × Nat) :=
  s.currentRound.map (fun r => (r.question.type, r.question.points))

/-- The token-ledger invariant of one player: the available tokens are
exactly the initial set minus the spend ledger `stats.tokensUsed` (which
only successful `placeBet` calls ever extend), and the ledger never
contains a value outside the initial set. -/
def tokensInv (p : Player) : Prop :=
  p.availableTokens = initialTokens.filter (fun t => t ∉ p.stats.tokensUsed) ∧
  ∀ t ∈ p.stats.tokensUsed, t ∈ initialTokens

/-! ## Theorems -/

/-- C1: in a session with players `["A","B"]` and `targetScore 3`, round 1
is a song question (base points 1); after A bets token 1 and is named
winner, A's score is 2 and A's tokens are `[2,3]`.  Round 2 is an artist
question (base points 2); after A bets token 2 and is named winner, the
award is 4, A's score is 6 ≥ 3, the session is `finished`, and the
reported game winner is A. -/
theorem c1_two_round_scenario :
    openQuestionInfo scnNext1.2.1 = some ("song", 1) ∧
    scnReveal1.2.players.map (fun p => (p.name, p.score, p.availableTokens)) =
      [("A", 2, [2, 3]), ("B", 0, [1, 2, 3])] ∧
    openQuestionInfo scnNext2.2.1 = some ("artist", 2) ∧
    (revealResults scnReveal2.1).map (fun res => res.pointsAwarded) = some 4 ∧
    scnReveal2.2.players.map (fun p => (p.name, p.score, p.availableTokens)) =
      [("A", 6, [3]), ("B", 0, [1, 2, 3])] ∧
    scenarioConfig.targetScore ≤ 6 ∧
    scnReveal2.2.status = "finished" ∧
    (revealResults scnReveal2.1).map (fun res => res.gameWinner) =
      some (some ⟨"player_1", "A", 6⟩) := by
  refine ⟨rfl, rfl, rfl, rfl, rfl, ?_, rfl, rfl⟩
  decide

/-- C9: the externally observable views (`getStatus`'s sanitized session
and the `getAllSessions` listing entry) of two sessions that differ only
in the open round's private `_answer` record are identical — the private
answer record does not flow into either view. -/
theorem c9_answer_record_noninterference (s : Session) (r : Round)
    (a1 a2 : AnswerRecord) :
    sanitizeSession { s with currentRound := some { r with _answer := a1 } } =
      sanitizeSession { s with currentRound := some { r with _answer := a2 } } ∧
    sessionSummary { s with currentRound := some { r with _answer := a1 } } =
      sessionSummary { s with currentRound := some { r with _answer := a2 } } :=
  ⟨rfl, rfl⟩

/-- C8 counterexample: `createSession` called with an empty player list
returns `success = true` and stores the session — it does not fail with a
ValidationError and does store a session, contrary to the claim. -/
theorem c8_counterexample :
    (createSession { sessions := [], trackUsedIds := [] }
        { players := [] } "game_1").1.1 = true ∧
    (lookupSession (createSession { sessions := [], trackUsedIds := [] }
        { players := [] } "game_1").2 "game_1").isSome = true :=
  ⟨rfl, rfl⟩

/-- Looking up a key right after `Map.set` yields the stored value. -/
theorem find?_setSession (l : List (String × Session)) (sid : String) (s : Session) :
    (setSession l sid s).find? (fun e => e.1 = sid) = some (sid, s) := by
  induction l with
  | nil => simp [setSession]
  | cons e rest ih =>
    by_cases h : e.1 = sid
    · simp [setSession, h]
    · simp [setSession, h, List.find?, ih]

/-- C8 (amended): `createSession` performs no player-list validation: for
every configuration — including an empty player list and lists of any
length — it returns `success = true` with the sanitized new session,
stores the session under its id, and builds every player with the fresh
identical initial token set `[1,2,3]`, score 0 and an empty spend
ledger. -/
theorem c8_create_session_no_validation (g : GlobalState) (config : CreateConfig)
    (sid : String) :
    (createSession g config sid).1.1 = true ∧
    (createSession g config sid).1.2 =
      sanitizeSession (newSession config.players
        { genres := config.genres, decades := config.decades
          difficulty := config.difficulty, targetScore := config.targetScore
          timeLimit := config.timeLimit
          powerCardsPerPlayer := config.powerCardsPerPlayer } sid) ∧
    lookupSession (createSession g config sid).2 sid =
      some (newSession config.players
        { genres := config.genres, decades := config.decades
          difficulty := config.difficulty, targetScore := config.targetScore
          timeLimit := config.timeLimit
          powerCardsPerPlayer := config.powerCardsPerPlayer } sid) ∧
    ∀ p ∈ (createSession g config sid).1.2.players,
      p.availableTokens = initialTokens ∧ p.score = 0 ∧ p.stats.tokensUsed = [] := by
  refine ⟨rfl, rfl, ?_, ?_⟩
  · simp [createSession, lookupSession, find?_setSession]
  · intro p hp
    simp only [createSession, sanitizeSession, newSession, List.mem_map] at hp
    obtain ⟨⟨i, name⟩, _, rfl⟩ := hp
    exact ⟨rfl, rfl, rfl⟩

/-- C4: the anti-repeat set actually consulted by track selection lives on
the process-wide `TrackService` singleton, and `createSession` resets it:
after session `game_a` has used track `"001"`, creating the distinct
session `game_b` clears the exclusion set, and `game_a`'s next round
selects `"001"` again even though `game_a`'s own `usedTrackIds` still
lists it — cross-session interference, contradicting the claim that the
set is session-scoped. -/
theorem c4_shared_exclusion_state :
    gRunA.trackUsedIds = ["001"] ∧
    gRunB.trackUsedIds = [] ∧
    (lookupSession gRunB "game_a").map (fun s => s.usedTrackIds) = some ["001"] ∧
    selectedTrackId gRunA2.1 = "001" :=
  ⟨rfl, rfl, rfl, rfl⟩

/-- C6: with an empty track catalog, `nextRound` does not return the
structured `'No hay tracks disponibles'` failure — the `TypeError` thrown
inside `getFallbackTrack` (indexing the empty catalog yields `undefined`,
then `markTrackAsUsed(selected.id)` dereferences it) escapes uncaught to
the caller. -/
theorem c6_empty_catalog_exception :
    (nextRoundCore [] [] scnStart (some "song") 0 0 0 0 none).1 =
      .thrown "TypeError: Cannot read properties of undefined (reading id)" :=
  rfl

/-- C8 witness: the amended claim instantiated on a one-player
configuration. -/
theorem c8_create_session_no_validation_witness :
    mkPlayer 0 "A" ∈
      (createSession { sessions := [], trackUsedIds := [] }
        { players := ["A"] } "game_1").1.2.players ∧
    (mkPlayer 0 "A").availableTokens = initialTokens ∧
    (mkPlayer 0 "A").score = 0 ∧ (mkPlayer 0 "A").stats.tokensUsed = [] :=
  ⟨by decide,
    c8_create_session_no_validation { sessions := [], trackUsedIds := [] }
      { players := ["A"] } "game_1" |>.2.2.2 (mkPlayer 0 "A") (by decide)⟩

/-- C3: `placeBet` with a token value that is not among the player's
available tokens fails, carries the player's current (unchanged) token
set in the failure response, and leaves the whole session — token set,
stats and round bets — untouched. -/
theorem c3_invalid_token_rejected (s : Session) (r : Round) (p : Player)
    (pid : String) (tok : Nat)
    (hr : s.currentRound = some r)
    (hp : s.players.find? (fun x => x.id = pid) = some p)
    (htok : tok ∉ p.availableTokens) :
    placeBetCore s pid tok = (.tokenUnavailable p.availableTokens, s) := by
  simp [placeBetCore, hr, hp, htok]

/-- C3 witness: betting the unavailable token `5` in the scenario's first
round fails and mutates nothing. -/
theorem c3_invalid_token_rejected_witness :
    (5 ∉ (mkPlayer 0 "A").availableTokens) ∧
    placeBetCore scnNext1.2.1 "player_1" 5 =
      (.tokenUnavailable (mkPlayer 0 "A").availableTokens, scnNext1.2.1) :=
  ⟨by decide,
    c3_invalid_token_rejected scnNext1.2.1 _ (mkPlayer 0 "A") "player_1" 5
      rfl (by decide) (by decide)⟩

/-- C7: `validateAnswer` accepts an input exactly when its normalization
(lowercased, trimmed, diacritics stripped) equals the lowercased trimmed
canonical answer, or equals / contains / is contained in the
normalization of some accepted variant; in particular `"México"` is
accepted for the canonical answer `"mexico"`. -/
theorem c7_lenient_matching :
    (validateAnswer "México" mexicoQuestion).correct = true ∧
    ∀ (u : String) (q : Question), u ≠ "" →
      ((validateAnswer u q).correct = true ↔
        (stripDiacritics (jsTrim (jsToLower u)) = jsTrim (jsToLower q.answer) ∨
         ∃ a ∈ q.acceptableAnswers,
           stripDiacritics (jsTrim (jsToLower u)) =
             stripDiacritics (jsTrim (jsToLower a)) ∨
           jsIncludes (stripDiacritics (jsTrim (jsToLower u)))
             (stripDiacritics (jsTrim (jsToLower a))) = true ∨
           jsIncludes (stripDiacritics (jsTrim (jsToLower a)))
             (stripDiacritics (jsTrim (jsToLower u))) = true)) := by
  refine ⟨rfl, ?_⟩
  intro u q hu
  simp only [validateAnswer, if_neg hu, Bool.or_eq_true, List.any_eq_true,
    decide_eq_true_eq, or_assoc]

/-- C7 witness: the characterization instantiated at the `"México"`
example. -/
theorem c7_lenient_matching_witness :
    ("México" ≠ "") ∧
    ((validateAnswer "México" mexicoQuestion).correct = true ↔
      (stripDiacritics (jsTrim (jsToLower "México")) =
        jsTrim (jsToLower mexicoQuestion.answer) ∨
       ∃ a ∈ mexicoQuestion.acceptableAnswers,
         stripDiacritics (jsTrim (jsToLower "México")) =
           stripDiacritics (jsTrim (jsToLower a)) ∨
         jsIncludes (stripDiacritics (jsTrim (jsToLower "México")))
           (stripDiacritics (jsTrim (jsToLower a))) = true ∨
         jsIncludes (stripDiacritics (jsTrim (jsToLower a)))
           (stripDiacritics (jsTrim (jsToLower "México"))) = true)) :=
  ⟨by decide, c7_lenient_matching.2 "México" mexicoQuestion (by decide)⟩

/-- Finding the player again after an id-preserving in-place update. -/
theorem find?_updateFirstPlayer (ps : List Player) (pid : String) (f : Player → Player)
    (hid : ∀ p, (f p).id = p.id) :
    (updateFirstPlayer ps pid f).find? (fun x => x.id = pid) =
      (ps.find? (fun x => x.id = pid)).map f := by
  induction ps with
  | nil => simp [updateFirstPlayer]
  | cons p rest ih =>
    by_cases h : p.id = pid
    · simp [updateFirstPlayer, h, List.find?, hid]
    · simp [updateFirstPlayer, h, List.find?, ih]

/-- Reading a key back right after assigning it on the bets object. -/
theorem getBet_setBet (bets : List (String × Nat)) (pid : String) (v : Nat) :
    getBet (setBet bets pid v) pid = some v := by
  induction bets with
  | nil => simp [setBet, getBet, List.find?]
  | cons b rest ih =>
    by_cases h : b.1 = pid
    · simp [setBet, h, getBet, List.find?]
    · simpa [setBet, h, getBet, List.find?] using ih

/-- C10: with an active round and two distinct tokens both still
available, two successive `placeBet` calls by the same player both
succeed; both tokens leave the player's `availableTokens`, but the round
records only the second value as that player's bet, so `revealAnswer`
naming that player the winner awards base points plus only the second
token — the first token is spent without ever contributing a bonus. -/
theorem c10_double_bet_overwrites (s : Session) (r : Round) (p : Player)
    (pid : String) (t1 t2 : Nat)
    (hr : s.currentRound = some r)
    (hp : s.players.find? (fun x => x.id = pid) = some p)
    (h1 : t1 ∈ p.availableTokens) (h2 : t2 ∈ p.availableTokens) (hne : t1 ≠ t2) :
    (placeBetCore s pid t1).1 =
      .ok t1 (p.availableTokens.filter (fun t => t ≠ t1)) ∧
    (placeBetCore (placeBetCore s pid t1).2 pid t2).1 =
      .ok t2 ((p.availableTokens.filter (fun t => t ≠ t1)).filter (fun t => t ≠ t2)) ∧
    ((placeBetCore (placeBetCore s pid t1).2 pid t2).2.currentRound.map
        (fun r2 => getBet r2.bets pid)) = some (some t2) ∧
    ((placeBetCore (placeBetCore s pid t1).2 pid t2).2.players.find?
        (fun x => x.id = pid)).map (fun q => q.availableTokens) =
      some ((p.availableTokens.filter (fun t => t ≠ t1)).filter (fun t => t ≠ t2)) ∧
    (revealResults (revealAnswerCore
        (placeBetCore (placeBetCore s pid t1).2 pid t2).2 (some pid)).1).map
        (fun res => (res.tokenBonus, res.pointsAwarded)) =
      some (t2, r.question.points + t2) := by
  have hstep1 :
      placeBetCore s pid t1 =
        (.ok t1 ((betUpdate t1 p).availableTokens),
          { s with
              players := updateFirstPlayer s.players pid (betUpdate t1)
              currentRound := some { r with bets := setBet r.bets pid t1 } }) := by
    simp [placeBetCore, hr, hp, h1]
  have hfind2 :
      (updateFirstPlayer s.players pid (betUpdate t1)).find?
        (fun x => x.id = pid) = some (betUpdate t1 p) := by
    rw [find?_updateFirstPlayer s.players pid (betUpdate t1) (fun _ => rfl), hp]; rfl
  have h2' : t2 ∈ (betUpdate t1 p).availableTokens := by
    simp [betUpdate, List.mem_filter, h2, Ne.symm hne]
  have hstep2 :
      placeBetCore (placeBetCore s pid t1).2 pid t2 =
        (.ok t2 ((betUpdate t2 (betUpdate t1 p)).availableTokens),
          { s with
              players := updateFirstPlayer
                (updateFirstPlayer s.players pid (betUpdate t1)) pid (betUpdate t2)
              currentRound :=
                some { r with bets := setBet (setBet r.bets pid t1) pid t2 } }) := by
    rw [hstep1]
    simp [placeBetCore, hfind2, h2']
  have hfind3 :
      (updateFirstPlayer
        (updateFirstPlayer s.players pid (betUpdate t1)) pid (betUpdate t2)).find?
        (fun x => x.id = pid) = some (betUpdate t2 (betUpdate t1 p)) := by
    rw [find?_updateFirstPlayer (updateFirstPlayer s.players pid (betUpdate t1)) pid
      (betUpdate t2) (fun _ => rfl), hfind2]; rfl
  refine ⟨?_, ?_, ?_, ?_, ?_⟩
  · rw [hstep1]; rfl
  · rw [hstep2]; rfl
  · rw [hstep2]
    simp [getBet_setBet]
  · rw [hstep2]
    simp only [hfind3, Option.map]; rfl
  · rw [hstep2]
    simp [revealAnswerCore, hfind3, getBet_setBet, revealResults]

/-- C10 witness: in the scenario's first round, player A bets token 1 and
then token 2; both are spent, the recorded bet is 2, and a reveal naming
A winner awards `1 + 2`. -/
theorem c10_double_bet_overwrites_witness :
    ((scnNext1.2.1.currentRound = some ((scnNext1.2.1.currentRound).getD
        ⟨0, "", ⟨"", "", "", none, ""⟩, ⟨"", "", "", 0, [], false⟩,
          ⟨"", [], "", ""⟩, [], ""⟩)) ∧
      1 ∈ (mkPlayer 0 "A").availableTokens ∧ 2 ∈ (mkPlayer 0 "A").availableTokens ∧
      (1 : Nat) ≠ 2) ∧
    (placeBetCore scnNext1.2.1 "player_1" 1).1 =
      .ok 1 ((mkPlayer 0 "A").availableTokens.filter (fun t => t ≠ 1)) := by
  refine ⟨⟨rfl, by decide, by decide, by decide⟩, ?_⟩
  exact (c10_double_bet_overwrites scnNext1.2.1 _ (mkPlayer 0 "A") "player_1" 1 2
    rfl (by decide) (by decide) (by decide) (by decide)).1

/-- Membership survives peeling one conditional filter layer. -/
theorem mem_iteFilter {α : Type} {P : Prop} [Decidable P] {p : α → Bool}
    {l : List α} {x : α} (h : x ∈ (if P then l.filter p else l)) : x ∈ l := by
  split at h
  · exact List.filter_subset' _ h
  · exact h

/-- Sampling from a non-empty pool always succeeds, yields a pool member
and passes the wrap flag through. -/
theorem selectAndMark_spec (pool : List Track) (used : List String) (pick : Nat)
    (w : Bool) (h : pool ≠ []) :
    ∃ sel, selectAndMark pool used pick w = .ok sel (markUsed sel.id used) w ∧
      sel ∈ pool := by
  have hlen : pick % pool.length < pool.length :=
    Nat.mod_lt _ (List.length_pos.mpr h)
  refine ⟨pool.get ⟨pick % pool.length, hlen⟩, ?_, List.get_mem _ _ _⟩
  simp [selectAndMark, List.getElem?_eq_getElem hlen]

/-- As long as some catalog track is still unused, the fallback never
reaches its reset-everything last resort: it succeeds, keeps the wrap
flag, and returns a track that is not in the exclusion set. -/
theorem getFallbackTrack_spec (tracks : List Track) (used : List String)
    (filters : Filters) (pick : Nat) (w : Bool)
    (h : tracks.filter (fun t => !(t.id ∈ used)) ≠ []) :
    ∃ sel u', getFallbackTrack tracks used filters pick w = .ok sel u' w ∧
      sel.id ∉ used := by
  simp only [getFallbackTrack]
  by_cases hb1 : (filterActive filters.difficulty &&
      !(tracks.filter (fun t =>
        difficultyMatches filters.difficulty t && !(t.id ∈ used))).isEmpty) = true
  · rw [if_pos hb1]
    have hne : tracks.filter (fun t =>
        difficultyMatches filters.difficulty t && !(t.id ∈ used)) ≠ [] := by
      have hb1' := hb1
      simp only [Bool.and_eq_true] at hb1'
      simpa using hb1'.2
    obtain ⟨sel, heq, hmem⟩ := selectAndMark_spec _ used pick w hne
    refine ⟨sel, _, heq, ?_⟩
    have := (List.mem_filter.mp hmem).2
    simp only [Bool.and_eq_true] at this
    simpa using this.2
  · rw [if_neg (by simpa using hb1)]
    by_cases hb2 : (filterActive filters.genre &&
        !(tracks.filter (fun t =>
          genreMatches filters.genre t && !(t.id ∈ used))).isEmpty) = true
    · rw [if_pos hb2]
      have hne : tracks.filter (fun t =>
          genreMatches filters.genre t && !(t.id ∈ used)) ≠ [] := by
        have hb2' := hb2
        simp only [Bool.and_eq_true] at hb2'
        simpa using hb2'.2
      obtain ⟨sel, heq, hmem⟩ := selectAndMark_spec _ used pick w hne
      refine ⟨sel, _, heq, ?_⟩
      have := (List.mem_filter.mp hmem).2
      simp only [Bool.and_eq_true] at this
      simpa using this.2
    · rw [if_neg (by simpa using hb2)]
      rw [if_pos (by simpa using h)]
      obtain ⟨sel, heq, hmem⟩ := selectAndMark_spec _ used pick w h
      refine ⟨sel, _, heq, ?_⟩
      simpa using (List.mem_filter.mp hmem).2

/-- Either branch of the final step of `getRandomTrack`: if every pool
member avoids the selection-time exclusion set and some catalog track is
unused, the call succeeds with the given wrap flag, and — when no wrap
happened (so the selection-time set is the original one) — the selected
track is not in the original exclusion set. -/
theorem getRandomTrack_branch (tracks : List Track) (usedSel usedOrig : List String)
    (filters : Filters) (pick : Nat) (w : Bool) (pool : List Track)
    (hfb : tracks.filter (fun t => !(t.id ∈ usedSel)) ≠ [])
    (hpool : ∀ t ∈ pool, t.id ∉ usedSel)
    (hw : w = false → usedSel = usedOrig) :
    ∃ t used' wrapped,
      (if pool.isEmpty then getFallbackTrack tracks usedSel filters pick w
        else selectAndMark pool usedSel pick w) = .ok t used' wrapped ∧
      (wrapped = false → t.id ∉ usedOrig) := by
  by_cases hP : pool.isEmpty
  · rw [if_pos hP]
    obtain ⟨sel, u', heq, hnot⟩ := getFallbackTrack_spec tracks usedSel filters pick w hfb
    exact ⟨sel, u', w, heq, fun hwf => (hw hwf) ▸ hnot⟩
  · rw [if_neg hP]
    obtain ⟨sel, heq, hmem⟩ := selectAndMark_spec pool usedSel pick w (by simpa using hP)
    exact ⟨sel, _, w, heq, fun hwf => (hw hwf) ▸ hpool sel hmem⟩

/-- C5 part 1 as a standalone statement about `getRandomTrack`, reused by
the claim theorem: on a non-empty catalog the call always succeeds, and
whenever no wrap occurred the returned track is not in the exclusion
set. -/
theorem getRandomTrack_spec (tracks : List Track) (used : List String)
    (filters : Filters) (pick : Nat) (h : tracks ≠ []) :
    ∃ t used' wrapped, getRandomTrack tracks used filters pick = .ok t used' wrapped ∧
      (wrapped = false → t.id ∉ used) := by
  simp only [getRandomTrack]
  by_cases h0 : (tracks.filter (fun t => !(t.id ∈ used))).isEmpty
  · simp only [h0, eq_self_iff_true, if_true]
    exact getRandomTrack_branch tracks [] used filters pick true _
      (by simpa using h) (by simp) (fun hc => absurd hc (by decide))
  · have h0' : (tracks.filter (fun t => !(t.id ∈ used))).isEmpty = false := by
      simpa using h0
    simp only [h0', Bool.false_eq_true, if_false]
    refine getRandomTrack_branch tracks used used filters pick false _
      ?_ ?_ (fun _ => rfl)
    · simpa using h0
    · intro t ht
      have hmem := mem_iteFilter (mem_iteFilter (mem_iteFilter ht))
      simpa using (List.mem_filter.mp hmem).2

/-- C5: `getRandomTrack` never returns a track already in `usedTrackIds`
unless the unused pool was empty and a wrap occurred, and on a non-empty
catalog it always succeeds — so after the whole catalog has been used, a
further `nextRound` call on a playing, unfinished session still starts a
round instead of erroring. -/
theorem c5_anti_repeat_and_wrap :
    (∀ (tracks : List Track) (used : List String) (filters : Filters) (pick : Nat),
      tracks ≠ [] →
      ∃ t used' wrapped,
        getRandomTrack tracks used filters pick = .ok t used' wrapped ∧
        (wrapped = false → t.id ∉ used)) ∧
    (∀ (tracks : List Track) (trackUsed : List String) (s : Session)
      (ft : Option String) (gp dp tp yp : Nat) (au : Option String),
      tracks ≠ [] → s.status = "playing" → checkWinner s = none →
      ∃ n tr q gm s' u',
        nextRoundCore tracks trackUsed s ft gp dp tp yp au = (.ok n tr q gm, s', u')) := by
  refine ⟨getRandomTrack_spec, ?_⟩
  intro tracks trackUsed s ft gp dp tp yp au h hs hw
  obtain ⟨t, u', w, heq, -⟩ := getRandomTrack_spec tracks trackUsed
    ⟨s.config.difficulty, getRandomFromArray s.config.genres gp,
      getRandomFromArray s.config.decades dp⟩ tp h
  simp only [nextRoundCore, hs, ne_eq]
  rw [if_neg (by simp), hw, heq]
  exact ⟨_, _, _, _, _, _, rfl⟩

/-- C5 witness: with the two-track catalog fully used, the next call
still succeeds (wrap engaged). -/
theorem c5_anti_repeat_and_wrap_witness :
    scenarioCatalog ≠ [] ∧
    ∃ t used' wrapped,
      getRandomTrack scenarioCatalog ["001", "002"] ⟨"ANY", "ANY", "ANY"⟩ 0 =
        .ok t used' wrapped ∧
      (wrapped = false → t.id ∉ ["001", "002"]) :=
  ⟨by decide,
    c5_anti_repeat_and_wrap.1 scenarioCatalog ["001", "002"] ⟨"ANY", "ANY", "ANY"⟩ 0
      (by decide)⟩

/-- Membership after an in-place first-match update: the element was
already there, or it is the update of the player `find?` locates. -/
theorem mem_updateFirstPlayer {ps : List Player} {pid : String} {f : Player → Player}
    {q : Player} (h : q ∈ updateFirstPlayer ps pid f) :
    q ∈ ps ∨ ∃ p, ps.find? (fun x => x.id = pid) = some p ∧ q = f p := by
  induction ps with
  | nil => simp [updateFirstPlayer] at h
  | cons a rest ih =>
    by_cases ha : a.id = pid
    · simp only [updateFirstPlayer, if_pos ha, List.mem_cons] at h
      rcases h with h | h
      · exact Or.inr ⟨a, by simp [List.find?, ha], h⟩
      · exact Or.inl (List.mem_cons_of_mem _ h)
    · simp only [updateFirstPlayer, if_neg ha, List.mem_cons] at h
      rcases h with h | h
      · exact Or.inl (h ▸ List.mem_cons_self _ _)
      · rcases ih h with h' | ⟨p, hp, hq⟩
        · exact Or.inl (List.mem_cons_of_mem _ h')
        · exact Or.inr ⟨p, by simp [List.find?, ha, hp], hq⟩

/-- Per-index view of an in-place first-match update. -/
theorem get?_updateFirstPlayer (ps : List Player) (pid : String) (f : Player → Player)
    (i : Nat) {q : Player} (h : (updateFirstPlayer ps pid f).get? i = some q) :
    ∃ p, ps.get? i = some p ∧ (q = p ∨ q = f p) := by
  induction ps generalizing i with
  | nil => simp [updateFirstPlayer] at h
  | cons a rest ih =>
    by_cases ha : a.id = pid
    · simp only [updateFirstPlayer, if_pos ha] at h
      cases i with
      | zero =>
        simp only [List.get?] at h ⊢
        exact ⟨a, rfl, Or.inr (Option.some.inj h).symm⟩
      | succ i =>
        simp only [List.get?] at h ⊢
        exact ⟨q, h, Or.inl rfl⟩
    · simp only [updateFirstPlayer, if_neg ha] at h
      cases i with
      | zero =>
        simp only [List.get?] at h ⊢
        exact ⟨a, rfl, Or.inl (Option.some.inj h).symm⟩
      | succ i =>
        simp only [List.get?] at h ⊢
        exact ih i h

/-- The betting update preserves the token-ledger invariant. -/
theorem tokensInv_betUpdate {p : Player} {tok : Nat} (hinv : tokensInv p)
    (htok : tok ∈ p.availableTokens) : tokensInv (betUpdate tok p) := by
  obtain ⟨hav, hsub⟩ := hinv
  constructor
  · show p.availableTokens.filter (fun t => t ≠ tok) = _
    rw [hav, List.filter_filter]
    apply List.filter_congr
    intro t _
    by_cases h1 : t ∈ p.stats.tokensUsed <;> by_cases h2 : t = tok <;>
      simp [betUpdate, h1, h2, List.mem_append]
  · intro t ht
    rcases List.mem_append.mp ht with h | h
    · exact hsub t h
    · have : t = tok := by simpa using h
      subst this
      rw [hav] at htok
      exact (List.mem_filter.mp htok).1

/-- The winner update does not touch the token fields, so it preserves
the token-ledger invariant. -/
theorem tokensInv_winUpdate {p : Player} {n : Nat} (hinv : tokensInv p) :
    tokensInv (winUpdate n p) := hinv

/-- `startGame` leaves the player list untouched. -/
theorem startGameCore_players (s : Session) :
    (startGameCore s).2.players = s.players := by
  unfold startGameCore; split <;> rfl

/-- `nextRound` leaves the player list untouched. -/
theorem nextRoundCore_players (tracks : List Track) (tu : List String) (s : Session)
    (ft : Option String) (gp dp tp yp : Nat) (au : Option String) :
    (nextRoundCore tracks tu s ft gp dp tp yp au).2.1.players = s.players := by
  unfold nextRoundCore
  dsimp only
  split
  · rfl
  · split
    · rfl
    · split <;> rfl

/-- Player-list effect of `placeBet`: nothing, or an in-place bet update
of the first player with the given id, who then held the token. -/
theorem placeBetCore_players (s : Session) (pid : String) (tok : Nat) :
    (placeBetCore s pid tok).2.players = s.players ∨
    ((placeBetCore s pid tok).2.players =
        updateFirstPlayer s.players pid (betUpdate tok) ∧
      ∃ player, s.players.find? (fun x => x.id = pid) = some player ∧
        tok ∈ player.availableTokens) := by
  unfold placeBetCore
  split
  · exact Or.inl rfl
  · split
    · exact Or.inl rfl
    · next player hfind =>
      split
      · next htok => exact Or.inr ⟨rfl, player, hfind, htok⟩
      · exact Or.inl rfl

/-- Player-list effect of `revealAnswer`: nothing, or an in-place winner
update of the first player with the winner's id. -/
theorem revealAnswerCore_players (s : Session) (wid : Option String) :
    (revealAnswerCore s wid).2.players = s.players ∨
    ∃ w n, (revealAnswerCore s wid).2.players =
      updateFirstPlayer s.players w (winUpdate n) := by
  unfold revealAnswerCore
  dsimp only
  split
  · exact Or.inl rfl
  · split
    · split <;> exact Or.inl rfl
    · split
      · split <;> exact Or.inl rfl
      · split <;> exact Or.inr ⟨_, _, rfl⟩

/-- Every lifecycle operation preserves the token-ledger invariant of
every player. -/
theorem applyOp_inv {s : Session} (hs : ∀ p ∈ s.players, tokensInv p) (o : Op) :
    ∀ p ∈ (applyOp s o).players, tokensInv p := by
  cases o with
  | startGame =>
    intro p hp
    rw [applyOp, startGameCore_players] at hp
    exact hs p hp
  | nextRound tracks tu ft gp dp tp yp au =>
    intro p hp
    rw [applyOp, nextRoundCore_players] at hp
    exact hs p hp
  | placeBet pid tok =>
    intro p hp
    rw [applyOp] at hp
    rcases placeBetCore_players s pid tok with hpl | ⟨hpl, player, hfind, htok⟩
    · rw [hpl] at hp; exact hs p hp
    · rw [hpl] at hp
      rcases mem_updateFirstPlayer hp with h | ⟨p', hp', rfl⟩
      · exact hs p h
      · have : p' = player := Option.some.inj (hp' ▸ hfind)
        subst this
        exact tokensInv_betUpdate
          (hs p' (List.mem_of_find?_eq_some hp')) htok
  | revealAnswer wid =>
    intro p hp
    rw [applyOp] at hp
    rcases revealAnswerCore_players s wid with hpl | ⟨w, n, hpl⟩
    · rw [hpl] at hp; exact hs p hp
    · rw [hpl] at hp
      rcases mem_updateFirstPlayer hp with h | ⟨p', hp', rfl⟩
      · exact hs p h
      · exact tokensInv_winUpdate (hs p' (List.mem_of_find?_eq_some hp'))

/-- Every state reachable from a fresh session satisfies the token-ledger
invariant. -/
theorem reachable_inv {s : Session} (hs : Reachable s) :
    ∀ p ∈ s.players, tokensInv p := by
  induction hs with
  | init players cfg sid =>
    intro p hp
    simp only [newSession, List.mem_map] at hp
    obtain ⟨⟨i, name⟩, -, rfl⟩ := hp
    exact ⟨by simp [mkPlayer], by simp [mkPlayer]⟩
  | step o _ ih => exact applyOp_inv ih o

/-- Reachability is closed under operation sequences. -/
theorem reachable_applyOps {s : Session} (hs : Reachable s) (ops : List Op) :
    Reachable (applyOps s ops) := by
  induction ops generalizing s with
  | nil => exact hs
  | cons o ops ih => exact ih (Reachable.step o hs)

/-- One operation can only extend a player's spend ledger (matched by
position in the player list, which no operation reorders). -/
theorem applyOp_spent_mono (s : Session) (o : Op) (i : Nat) {q : Player}
    (hq : (applyOp s o).players.get? i = some q) :
    ∃ p, s.players.get? i = some p ∧
      ∀ t ∈ p.stats.tokensUsed, t ∈ q.stats.tokensUsed := by
  cases o with
  | startGame =>
    rw [applyOp, startGameCore_players] at hq
    exact ⟨q, hq, fun t ht => ht⟩
  | nextRound tracks tu ft gp dp tp yp au =>
    rw [applyOp, nextRoundCore_players] at hq
    exact ⟨q, hq, fun t ht => ht⟩
  | placeBet pid tok =>
    rw [applyOp] at hq
    rcases placeBetCore_players s pid tok with hpl | ⟨hpl, -⟩
    · rw [hpl] at hq; exact ⟨q, hq, fun t ht => ht⟩
    · rw [hpl] at hq
      obtain ⟨p, hp, hq'⟩ := get?_updateFirstPlayer _ _ _ _ hq
      rcases hq' with h | h
      · exact ⟨p, hp, fun t ht => by rw [h]; exact ht⟩
      · exact ⟨p, hp, fun t ht => by rw [h]; exact List.mem_append_left _ ht⟩
  | revealAnswer wid =>
    rw [applyOp] at hq
    rcases revealAnswerCore_players s wid with hpl | ⟨w, n, hpl⟩
    · rw [hpl] at hq; exact ⟨q, hq, fun t ht => ht⟩
    · rw [hpl] at hq
      obtain ⟨p, hp, hq'⟩ := get?_updateFirstPlayer _ _ _ _ hq
      rcases hq' with h | h
      · exact ⟨p, hp, fun t ht => by rw [h]; exact ht⟩
      · exact ⟨p, hp, fun t ht => by rw [h]; exact ht⟩

/-- A sequence of operations can only extend a player's spend ledger. -/
theorem applyOps_spent_mono (s : Session) (ops : List Op) (i : Nat) {q : Player}
    (hq : (applyOps s ops).players.get? i = some q) :
    ∃ p, s.players.get? i = some p ∧
      ∀ t ∈ p.stats.tokensUsed, t ∈ q.stats.tokensUsed := by
  induction ops generalizing s with
  | nil => exact ⟨q, hq, fun t ht => ht⟩
  | cons o ops ih =>
    obtain ⟨p', hp', hmono'⟩ := ih (applyOp s o) hq
    obtain ⟨p, hp, hmono⟩ := applyOp_spent_mono s o i hp'
    exact ⟨p, hp, fun t ht => hmono' t (hmono t ht)⟩

/-- The two directions of the ledger equation, from the invariant. -/
theorem tokensInv_iff {p : Player} (h : tokensInv p) (t : Nat) :
    (t ∈ initialTokens ∧ t ∉ p.availableTokens) ↔ t ∈ p.stats.tokensUsed := by
  obtain ⟨hav, hsub⟩ := h
  constructor
  · rintro ⟨hti, hta⟩
    by_contra hnt
    exact hta (hav ▸ List.mem_filter.mpr ⟨hti, by simpa using hnt⟩)
  · intro ht
    refine ⟨hsub t ht, ?_⟩
    rw [hav]
    intro hmem
    have hdec := (List.mem_filter.mp hmem).2
    simp only [decide_eq_true_eq] at hdec
    exact hdec ht

/-- C2: in every reachable session state, for every player, the initial
token set `{1,2,3}` minus the current `availableTokens` is exactly the
set of token values ever spent through successful `placeBet` calls (the
`stats.tokensUsed` ledger, which only `placeBet` extends), and a token
once spent never reappears in that player's `availableTokens` under any
later sequence of operations — winners or not. -/
theorem c2_token_ledger (s : Session) (hs : Reachable s) :
    (∀ p ∈ s.players, ∀ t : Nat,
      (t ∈ initialTokens ∧ t ∉ p.availableTokens) ↔ t ∈ p.stats.tokensUsed) ∧
    (∀ (ops : List Op) (i : Nat) (p q : Player),
      s.players.get? i = some p → (applyOps s ops).players.get? i = some q →
      ∀ t ∈ p.stats.tokensUsed, t ∉ q.availableTokens) := by
  constructor
  · intro p hp t
    exact tokensInv_iff (reachable_inv hs p hp) t
  · intro ops i p q hp hq t ht
    obtain ⟨p', hp', hmono⟩ := applyOps_spent_mono s ops i hq
    rw [hp] at hp'
    obtain rfl : p' = p := (Option.some.inj hp').symm
    have hqinv : tokensInv q :=
      reachable_inv (reachable_applyOps hs ops) q (List.get?_mem hq)
    have htq : t ∈ q.stats.tokensUsed := hmono t ht
    intro hcontra
    rw [hqinv.1] at hcontra
    have hdec := (List.mem_filter.mp hcontra).2
    simp only [decide_eq_true_eq] at hdec
    exact hdec htq

/-- C2 witness: the invariant read off a freshly created session, and
preservation along a concrete bet. -/
theorem c2_token_ledger_witness :
    mkPlayer 0 "A" ∈ (newSession ["A"] scenarioConfig "game_w").players ∧
    ((1 ∈ initialTokens ∧ 1 ∉ (mkPlayer 0 "A").availableTokens) ↔
      1 ∈ (mkPlayer 0 "A").stats.tokensUsed) :=
  ⟨by decide,
    (c2_token_ledger (newSession ["A"] scenarioConfig "game_w")
      (Reachable.init ["A"] scenarioConfig "game_w")).1
      (mkPlayer 0 "A") (by decide) 1⟩

end Hitback
